import Mathlib

/- Verification of the market-data aggregation and derived-scoring pipeline.

The development shallowly embeds the quote resolver (`src/server/services/stockApi.ts`,
class `RealTimeMarketDataService`), the behavioral bias analyzer (same file, class
`BehavioralBiasAnalyzer`, first copy), the alpha-signature engine
(`src/unnamed/part_005`, class `AlphaSignatureService`) and the sentiment scorer
(`src/unnamed/part_007`, class `SentimentAnalysisService`).

Modelling conventions:
- JavaScript numbers are modelled as `ℚ` where the source only performs field
  arithmetic, and as `ℝ` where `Math.sqrt` forces irrational values
  (the alpha-signature engine).
- Millisecond timestamps (`Date.now()`, `new Date(x).getTime()`) are modelled as `ℤ`.
- `Math.random()` draws are passed as explicit `ℚ` parameters assumed in `[0, 1)`.
- Network calls (`axios`/provider fetches) are passed as explicit function
  parameters of type `String → Option Quote`; `none` models provider failure,
  which in the source is an exception or a `null` result caught locally.
- `x || d` on numbers is modelled by an explicit function: it yields `d` when `x`
  is absent (`undefined`/`NaN`, modelled `none`) or when `x = 0`, since `0` is falsy.
- `toFixed(d)` and `Math.round` round half away from zero for the nonnegative
  values that occur here; they are modelled with `Int.floor (x + 1/2)` scaling,
  which agrees with the ECMAScript choice of the larger candidate on ties.
-/

/-! ## ASCII string helpers

The source uses `toLowerCase`, `toUpperCase` and `String.prototype.includes` on
ASCII ticker symbols and news text. Lean core string functions do not reduce in
the kernel, so small structural equivalents are defined here. -/

/-- Lower-case a single ASCII character, as `toLowerCase` does on ASCII input. -/
def asciiLower (c : Char) : Char :=
  if 'A' ≤ c ∧ c ≤ 'Z' then Char.ofNat (c.toNat + 32) else c

/-- Upper-case a single ASCII character, as `toUpperCase` does on ASCII input. -/
def asciiUpper (c : Char) : Char :=
  if 'a' ≤ c ∧ c ≤ 'z' then Char.ofNat (c.toNat - 32) else c

/-- Model of `s.toLowerCase()` for the ASCII strings used by the services. -/
def strLower (s : String) : String := ⟨s.data.map asciiLower⟩

/-- Model of `s.toUpperCase()` for the ASCII strings used by the services. -/
def strUpper (s : String) : String := ⟨s.data.map asciiUpper⟩

/-- Check whether the first list starts with the second one. -/
def startsWithList : List Char → List Char → Bool
  | _, [] => true
  | [], _ :: _ => false
  | h :: hs, n :: ns => h == n && startsWithList hs ns

/-- Check whether the second list occurs contiguously inside the first one. -/
def containsList : List Char → List Char → Bool
  | [], needle => needle.isEmpty
  | h :: hs, needle => startsWithList (h :: hs) needle || containsList hs needle

/-- Model of `hay.includes(needle)`. -/
def strIncludes (hay needle : String) : Bool := containsList hay.data needle.data

/-- Model of `Number(x) || d` applied to a parsed JSON field: `none` stands for a
missing or non-numeric field (`Number` gives `NaN`), and both `NaN` and `0` are
falsy, so they fall through to the default `d`. -/
def jsNumOr (x : Option ℚ) (d : ℚ) : ℚ :=
  match x with
  | none => d
  | some v => if v = 0 then d else v

namespace SentimentService

/-! ## Sentiment scorer (`src/unnamed/part_007`, `SentimentAnalysisService`)

`analyzeSentiment` either normalizes an LLM JSON response (lines 48-62) or, when
no key is configured or the call fails, falls back to `getMockSentiment`
(lines 83-111). Both paths are embedded below; the network call itself is
external and appears only through its parsed response fields. -/

/-- Sentiment labels used by the service. -/
inductive Sentiment
  | positive
  | negative
  | neutral
deriving DecidableEq, Repr

/-- Result triple returned by the sentiment scorer. -/
structure SentimentResult where
  sentiment : Sentiment
  score : ℚ
  confidence : ℚ
deriving DecidableEq, Repr

/-- Positive keyword list of `getMockSentiment`. -/
def positiveWords : List String :=
  ["beat", "strong", "growth", "profit", "increase", "boost", "success", "gain"]

/-- Negative keyword list of `getMockSentiment`. -/
def negativeWords : List String :=
  ["loss", "decline", "fall", "drop", "challenge", "struggle", "weakness", "concern"]

/-- Number of positive keywords occurring in the lower-cased text
(`positiveWords.filter(word => lowerText.includes(word)).length`). -/
def positiveMatchCount (text : String) : ℕ :=
  (positiveWords.filter (fun w => strIncludes (strLower text) w)).length

/-- Number of negative keywords occurring in the lower-cased text. -/
def negativeMatchCount (text : String) : ℕ :=
  (negativeWords.filter (fun w => strIncludes (strLower text) w)).length

/-- Embedding of `getMockSentiment` (part_007 lines 83-111). The parameter `r`
is the `Math.random()` draw used for the confidence value. -/
def getMockSentiment (text : String) (r : ℚ) : SentimentResult :=
  if positiveMatchCount text > negativeMatchCount text then
    { sentiment := .positive
      score := (6 : ℚ) + (min (positiveMatchCount text) 4 : ℕ)
      confidence := 0.7 + r * 0.2 }
  else if negativeMatchCount text > positiveMatchCount text then
    { sentiment := .negative
      score := (4 : ℚ) - (min (negativeMatchCount text) 4 : ℕ)
      confidence := 0.7 + r * 0.2 }
  else
    { sentiment := .neutral
      score := 5
      confidence := 0.7 + r * 0.2 }

/-- Coercion of a raw JSON string label to a `Sentiment`, mirroring how a valid
label string maps to its value; callers guard validity separately. -/
def sentimentOfString (s : String) : Sentiment :=
  if s == "positive" then .positive
  else if s == "negative" then .negative
  else .neutral

/-- Embedding of the response-normalization step of `analyzeSentiment`
(part_007 lines 48-62): validate the label against the allowed list, defaulting
to neutral, and clamp score and confidence with `Number(x) || default` feeding
`Math.max(lo, Math.min(hi, ·))`. -/
def normalizeSentimentResponse (rawSentiment : String)
    (rawScore rawConfidence : Option ℚ) : SentimentResult :=
  let sentiment :=
    if rawSentiment ∈ ["positive", "negative", "neutral"] then
      sentimentOfString rawSentiment
    else .neutral
  let score := max 0 (min 10 (jsNumOr rawScore 5))
  let confidence := max 0 (min 1 (jsNumOr rawConfidence 0.5))
  { sentiment := sentiment, score := score, confidence := confidence }

end SentimentService

namespace StockApi

/-! ## Quote resolver (`src/server/services/stockApi.ts`, `RealTimeMarketDataService`)

The service keys an in-memory cache by raw symbol with a 60000 ms TTL, tries
Yahoo Finance, then Alpha Vantage for stocks and forex when a key is set, and
otherwise builds a synthetic quote. Provider fetches are modelled as function
parameters `String → Option Quote`; `Math.random()` draws and the current time
are explicit parameters. The model has no exception path: every source-level
throw is caught inside `getQuote` and routed to the synthetic quote, which the
model reaches directly. -/

/-- Asset classes assigned by `determineAssetType`. -/
inductive AssetType
  | stock
  | etf
  | crypto
  | commodity
  | forex
deriving DecidableEq, Repr

/-- Embedding of the `AssetQuote` interface. The `lastUpdated` ISO string is
modelled as the millisecond timestamp it is rendered from. -/
structure Quote where
  symbol : String
  price : ℚ
  change : ℚ
  changePercent : ℚ
  volume : ℤ
  marketCap : Option ℚ
  assetType : AssetType
  lastUpdated : ℤ
  sector : Option String
  companyName : Option String
deriving DecidableEq, Repr

/-- Concrete provider quote used to instantiate cache statements. -/
def sampleQuote : Quote :=
  { symbol := "AAPL", price := 100, change := 1, changePercent := 1, volume := 5,
    marketCap := none, assetType := .stock, lastUpdated := 0, sector := none,
    companyName := none }

/-- Embedding of `determineAssetType` (stockApi.ts lines 274-299). -/
def determineAssetType (symbol : String) : AssetType :=
  let upper := strUpper symbol
  if strIncludes upper "USD" && (strIncludes upper "BTC" || strIncludes upper "ETH"
      || strIncludes upper "ADA" || strIncludes upper "SOL") then
    .crypto
  else if strIncludes upper "=X" || (upper.length == 6 && strIncludes upper "USD")
      || strIncludes upper "EUR" || strIncludes upper "GBP" || strIncludes upper "JPY" then
    .forex
  else if ["GLD", "SLV", "OIL", "USO", "UNG", "GOLD"].contains upper
      || strIncludes upper "COMMODITY" then
    .commodity
  else if ["SPY", "QQQ", "IWM", "VTI", "VOO", "VEA", "VWO", "IEMG"].contains upper
      || strIncludes upper "ETF" then
    .etf
  else .stock

/-- Embedding of `formatSymbolForYahoo` (stockApi.ts lines 301-318). -/
def formatSymbolForYahoo (symbol : String) (assetType : AssetType) : String :=
  let upper := strUpper symbol
  match assetType with
  | .crypto => if !(strIncludes upper "-USD") then upper ++ "-USD" else upper
  | .forex => if !(strIncludes upper "=X") && upper.length == 6 then upper ++ "=X" else upper
  | _ => upper

/-- Static base-price table of `getBasePriceForSymbol` (stockApi.ts lines 343-363). -/
def basePriceTable : List (String × ℚ) :=
  [("AAPL", 180.25), ("TSLA", 252.30), ("NVDA", 487.23), ("MSFT", 378.95),
   ("GOOGL", 142.89), ("AMZN", 151.45), ("META", 324.67), ("AMD", 156.78),
   ("NFLX", 445.32), ("BABA", 89.45), ("TSM", 103.67), ("ASML", 789.23),
   ("SPY", 451.23), ("QQQ", 384.56), ("IWM", 198.45), ("VTI", 234.67),
   ("VOO", 401.23), ("VEA", 48.92), ("VWO", 42.34), ("IEMG", 52.11),
   ("BTC-USD", 65420.50), ("ETH-USD", 3456.78), ("ADA-USD", 0.45),
   ("SOL-USD", 142.34), ("DOT-USD", 6.78), ("MATIC-USD", 0.89),
   ("GLD", 201.45), ("SLV", 23.67), ("USO", 78.23), ("UNG", 12.34),
   ("EURUSD=X", 1.0845), ("GBPUSD=X", 1.2634), ("USDJPY=X", 149.23),
   ("AUDUSD=X", 0.6789), ("USDCAD=X", 1.3456), ("USDCHF=X", 0.8912)]

/-- Embedding of `getDefaultPriceForAssetType` (stockApi.ts lines 368-376); `r`
is the `Math.random()` draw. -/
def getDefaultPriceForAssetType (assetType : AssetType) (r : ℚ) : ℚ :=
  match assetType with
  | .crypto => 1000 + r * 50000
  | .forex => 0.5 + r * 1.5
  | .commodity => 50 + r * 200
  | .etf => 100 + r * 400
  | .stock => 50 + r * 500

/-- Embedding of `getBasePriceForSymbol` (stockApi.ts lines 340-366). -/
def getBasePriceForSymbol (symbol : String) (assetType : AssetType) (r : ℚ) : ℚ :=
  match basePriceTable.find? (fun e => e.1 == strUpper symbol) with
  | some e => e.2
  | none => getDefaultPriceForAssetType assetType r

/-- Embedding of `getVolatilityForAssetType` (stockApi.ts lines 378-386). -/
def getVolatilityForAssetType (assetType : AssetType) : ℚ :=
  match assetType with
  | .crypto => 8
  | .forex => 1
  | .commodity => 4
  | .etf => 2
  | .stock => 3

/-- Model of `Number(x.toFixed(d))` for the nonnegative prices produced here:
scale by `10^d`, round half away from zero, and scale back. -/
def toFixed (d : ℕ) (x : ℚ) : ℚ := ((⌊x * 10 ^ d + 1 / 2⌋ : ℤ) : ℚ) / 10 ^ d

/-- Static company table of `getMockCompanyInfo` (stockApi.ts lines 390-406). -/
def mockCompanyTable : List (String × String × String) :=
  [("AAPL", "Apple Inc.", "Technology"), ("TSLA", "Tesla Inc.", "Automotive"),
   ("MSFT", "Microsoft Corp.", "Technology"), ("NVDA", "NVIDIA Corporation", "Technology"),
   ("GOOGL", "Alphabet Inc.", "Technology"), ("AMD", "Advanced Micro Devices", "Technology"),
   ("AMZN", "Amazon.com Inc.", "Technology"), ("META", "Meta Platforms Inc.", "Technology"),
   ("NFLX", "Netflix Inc.", "Communication Services"), ("SPY", "SPDR S&P 500 ETF", "ETF"),
   ("QQQ", "Invesco QQQ Trust", "ETF"), ("BTC-USD", "Bitcoin USD", "Cryptocurrency"),
   ("ETH-USD", "Ethereum USD", "Cryptocurrency"), ("GLD", "SPDR Gold Shares", "Commodities"),
   ("EURUSD=X", "EUR/USD", "Currency")]

/-- Embedding of `getMockCompanyInfo` (stockApi.ts lines 388-409); returns the
pair of company name and sector. -/
def getMockCompanyInfo (symbol : String) : String × String :=
  match mockCompanyTable.find? (fun e => e.1 == strUpper symbol) with
  | some e => e.2
  | none => (symbol ++ " Corp.", "Unknown")

/-- Embedding of `getRealisticMockQuote` (stockApi.ts lines 320-338). The draws
`rBase`, `rChange` and `rVolume` model the `Math.random()` calls used for the
default base price, the percent change, and the volume. -/
def getRealisticMockQuote (symbol : String) (assetType : AssetType) (now : ℤ)
    (rBase rChange rVolume : ℚ) : Quote :=
  let basePrice := getBasePriceForSymbol symbol assetType rBase
  let volatility := getVolatilityForAssetType assetType
  let changePercent := (rChange - 0.5) * volatility * 2
  let change := basePrice * (changePercent / 100)
  let companyInfo := getMockCompanyInfo symbol
  { symbol := strUpper symbol
    price := toFixed (if assetType == .forex then 4 else 2) (basePrice + change)
    change := toFixed 2 change
    changePercent := toFixed 2 changePercent
    volume := ⌊rVolume * 10000000⌋ + 1000000
    marketCap := none
    assetType := assetType
    lastUpdated := now
    companyName := some companyInfo.1
    sector := some companyInfo.2 }

/-- Cache of the service: entries of raw symbol, quote, and store timestamp,
with newest entry first (later `set` calls shadow older ones). -/
def Cache := List (String × Quote × ℤ)

/-- Model of `this.priceCache.get(symbol)`. -/
def cacheLookup (c : Cache) (symbol : String) : Option (Quote × ℤ) :=
  (List.find? (fun e => e.1 == symbol) c).map (fun e => e.2)

/-- Model of `this.priceCache.set(symbol, { data, timestamp })`. -/
def cacheSet (c : Cache) (symbol : String) (q : Quote) (t : ℤ) : Cache :=
  (symbol, q, t) :: List.filter (fun e => !(e.1 == symbol)) c

/-- Cache TTL `this.cacheTimeout` in milliseconds. -/
def cacheTimeout : ℤ := 60000

/-- Fetch path of `getQuote` after a cache miss (stockApi.ts lines 52-80):
classify, format, try Yahoo, optionally try Alpha Vantage for stocks and forex,
then fall back to the synthetic quote. Provider errors are already folded into
the `none` results of the fetch parameters. -/
def fetchQuote (c : Cache) (symbol : String) (now : ℤ)
    (yahoo : String → Option Quote) (hasAlphaVantageKey : Bool)
    (alphaVantage : String → Option Quote) (rBase rChange rVolume : ℚ) :
    Quote × Cache :=
  let assetType := determineAssetType symbol
  let formattedSymbol := formatSymbolForYahoo symbol assetType
  match yahoo formattedSymbol with
  | some quote => (quote, cacheSet c symbol quote now)
  | none =>
    if hasAlphaVantageKey && (assetType == .stock || assetType == .forex) then
      match alphaVantage symbol with
      | some alphaQuote => (alphaQuote, cacheSet c symbol alphaQuote now)
      | none => (getRealisticMockQuote symbol assetType now rBase rChange rVolume, c)
    else (getRealisticMockQuote symbol assetType now rBase rChange rVolume, c)

/-- Embedding of `getQuote` (stockApi.ts lines 45-81): return a fresh cached
quote if one exists, otherwise run the fetch waterfall. The synthetic fallback
result is returned without being cached, exactly as in the source. -/
def getQuote (c : Cache) (symbol : String) (now : ℤ)
    (yahoo : String → Option Quote) (hasAlphaVantageKey : Bool)
    (alphaVantage : String → Option Quote) (rBase rChange rVolume : ℚ) :
    Quote × Cache :=
  match cacheLookup c symbol with
  | some (data, timestamp) =>
    if now - timestamp < cacheTimeout then (data, c)
    else fetchQuote c symbol now yahoo hasAlphaVantageKey alphaVantage rBase rChange rVolume
  | none => fetchQuote c symbol now yahoo hasAlphaVantageKey alphaVantage rBase rChange rVolume

end StockApi

namespace BiasAnalyzer

/-! ## Behavioral bias analyzer (`src/server/services/stockApi.ts`,
`BehavioralBiasAnalyzer`, first copy, lines 495-1096)

Only the pieces the claims depend on are embedded: the behavioral profile, the
overconfidence detector, the herding detector, and the per-user sentiment
history supplier. Narrative fields of a finding (description, evidence,
recommendation, detectedAt) carry no logic and are omitted from the record. -/

/-- Portfolio holding fields used by the analyzer. -/
structure Holding where
  sector : Option String
  assetType : String
deriving DecidableEq, Repr

/-- Embedding of `UserTransactionType` fields used by the detectors; timestamps
are milliseconds. -/
structure UserTransaction where
  symbol : String
  type : String
  quantity : ℚ
  price : ℚ
  timestamp : ℤ
deriving DecidableEq, Repr

/-- Sentiment history record consumed by `detectHerding`. -/
structure SentimentRecord where
  symbol : String
  sentiment : String
  score : ℚ
  timestamp : ℤ
deriving DecidableEq, Repr

/-- Detected bias finding; narrative fields are omitted. -/
structure BiasFinding where
  biasType : String
  severity : String
  confidence : ℚ
deriving DecidableEq, Repr

/-- Behavioral profile fields used by the detectors; the constant `biasScores`
map is omitted. -/
structure BehavioralProfile where
  userId : String
  riskTolerance : String
  tradingFrequency : String
  averageHoldPeriod : ℚ
  diversificationScore : ℚ
deriving DecidableEq, Repr

/-- Model of `Math.round` on the nonnegative scores produced here, returned as
a rational: round half away from zero. -/
def jsRound (x : ℚ) : ℚ := ((⌊x + 1 / 2⌋ : ℤ) : ℚ)

/-- Count of `new Set(portfolio.map(h => h.sector).filter(Boolean)).size`:
distinct sectors after dropping missing and empty (falsy) values. -/
def uniqueSectorCount (portfolio : List Holding) : ℕ :=
  ((((portfolio.map Holding.sector).filterMap id).filter (fun s => !(s == ""))).dedup).length

/-- Count of `new Set(portfolio.map(h => h.assetType)).size`. -/
def uniqueAssetTypeCount (portfolio : List Holding) : ℕ :=
  (((portfolio.map Holding.assetType)).dedup).length

/-- Local `diversificationScore` value of `calculateBehavioralProfile`
(stockApi.ts line 847) before the stored profile rounds it:
`Math.min(10, uniqueSectors * 2 + uniqueAssetTypes * 1.5)`. -/
def diversificationScoreRaw (portfolio : List Holding) : ℚ :=
  min 10 ((uniqueSectorCount portfolio : ℚ) * 2 + (uniqueAssetTypeCount portfolio : ℚ) * 1.5)

/-- Number of transactions in the last 90 days
(`timestamp > now - 90 * 24 * 60 * 60 * 1000`). -/
def recentTransactionCount (transactions : List UserTransaction) (now : ℤ) : ℕ :=
  (transactions.filter (fun t => now - 7776000000 < t.timestamp)).length

/-- Embedding of `calculateBehavioralProfile` (stockApi.ts lines 838-876). The
stored `diversificationScore` is `Math.round` of the raw weighted count. -/
def calculateBehavioralProfile (userId : String) (portfolio : List Holding)
    (transactions : List UserTransaction) (now : ℤ) : BehavioralProfile :=
  let recentTransactions := recentTransactionCount transactions now
  let tradingFrequency :=
    if recentTransactions > 30 then "high"
    else if recentTransactions > 10 then "medium" else "low"
  let cryptoAllocation : ℚ :=
    ((portfolio.filter (fun h => h.assetType == "crypto")).length : ℚ)
      / ((max portfolio.length 1 : ℕ) : ℚ)
  let riskTolerance :=
    if cryptoAllocation > 0.3 then "aggressive"
    else if cryptoAllocation > 0.1 then "moderate" else "conservative"
  { userId := userId
    riskTolerance := riskTolerance
    tradingFrequency := tradingFrequency
    averageHoldPeriod := 30
    diversificationScore := jsRound (diversificationScoreRaw portfolio) }

/-- Local `overconfidenceScore` of `detectOverconfidence` (stockApi.ts line
636): `tradingFrequency * 2 + (10 - diversificationScore) / 2`, reading the
diversification score from the stored profile. -/
def overconfidenceScore (transactions : List UserTransaction)
    (profile : BehavioralProfile) (now : ℤ) : ℚ :=
  ((recentTransactionCount transactions now : ℚ) / 90) * 2
    + (10 - profile.diversificationScore) / 2

/-- Embedding of `detectOverconfidence` (stockApi.ts lines 627-655). -/
def detectOverconfidence (transactions : List UserTransaction)
    (profile : BehavioralProfile) (now : ℤ) : Option BiasFinding :=
  if overconfidenceScore transactions profile now > 4 then
    some { biasType := "overconfidence"
           severity :=
             if overconfidenceScore transactions profile now > 8 then "high"
             else if overconfidenceScore transactions profile now > 6 then "medium"
             else "low"
           confidence := min 0.85 (overconfidenceScore transactions profile now / 10) }
  else none

/-- Embedding of `detectHerding` (stockApi.ts lines 719-757): require at least
10 sentiment records, then count buys that coincide within 24 hours with a
positive sentiment record scoring above 7. -/
def detectHerding (transactions : List UserTransaction)
    (sentimentHistory : List SentimentRecord) : Option BiasFinding :=
  if sentimentHistory.length < 10 then none
  else
    let buys := transactions.filter (fun t => t.type == "buy")
    let herdingInstances :=
      (buys.filter (fun t =>
        match sentimentHistory.find? (fun s =>
            s.symbol == t.symbol && (s.timestamp - t.timestamp).natAbs < 86400000) with
        | some s => s.sentiment == "positive" && decide (s.score > 7)
        | none => false)).length
    if buys.length = 0 then none
    else
      let herdingScore : ℚ := ((herdingInstances : ℚ) / (buys.length : ℚ)) * 10
      if herdingScore > 4 then
        some { biasType := "herding"
               severity :=
                 if herdingScore > 8 then "high"
                 else if herdingScore > 6 then "medium" else "low"
               confidence := min 0.75 (herdingScore / 10) }
      else none

/-- Embedding of `getUserSentimentHistory` (stockApi.ts lines 915-919): the
source always returns the empty array. -/
def getUserSentimentHistory (userId : String) : List SentimentRecord := []

end BiasAnalyzer

namespace AlphaSignatureService

/-! ## Alpha-signature engine (`src/unnamed/part_005`, `AlphaSignatureService`)

Scores are real-valued because the volatility score takes a square root. The
stored sentiment is `latestSentiment?.score || 5`, modelled through an explicit
option with the falsy-zero default. The storage read and the persistence write
are external; `calculateAlphaSignature` is embedded as the function from the
fetched inputs to the returned metrics together with the row passed to
`storage.addAlphaSignature`. The catch branch of the source returns neutral
metrics without persisting anything and is therefore outside this function. -/

/-- Trading signals of the engine. -/
inductive Signal
  | strong_buy
  | buy
  | hold
  | sell
  | strong_sell
deriving DecidableEq, Repr

/-- Metrics returned by `calculateAlphaSignature`. -/
structure AlphaMetrics where
  sentimentScore : ℝ
  volatilityScore : ℝ
  momentumScore : ℝ
  alphaScore : ℝ
  signal : Signal

/-- Row passed to `storage.addAlphaSignature` (part_005 lines 44-51). -/
structure AlphaSignatureRow where
  symbol : String
  alphaScore : ℝ
  sentimentScore : ℝ
  volatilityScore : ℝ
  momentumScore : ℝ
  signal : Signal

/-- Model of `x?.score || d` for the latest-sentiment read: missing record or a
zero (falsy) score falls back to the default. -/
noncomputable def jsNumOrReal (x : Option ℝ) (d : ℝ) : ℝ :=
  match x with
  | none => d
  | some v => if v = 0 then d else v

/-- Arithmetic mean `l.reduce((sum, x) => sum + x, 0) / l.length` of a list. -/
noncomputable def listMean (l : List ℝ) : ℝ := l.sum / l.length

/-- Period-over-period returns: for each adjacent pair, `(cur - prev) / prev`
(part_005 lines 73-78). -/
noncomputable def returnsOf (prices : List ℝ) : List ℝ :=
  List.zipWith (fun prev cur => (cur - prev) / prev) prices prices.tail

/-- Population variance (divide by `n`, not `n - 1`) of a list, as computed at
part_005 lines 81-82. -/
noncomputable def popVariance (l : List ℝ) : ℝ :=
  ((l.map (fun x => (x - listMean l) ^ 2)).sum) / l.length

/-- Embedding of `calculateVolatilityScore` (part_005 lines 67-91): default 5
below 5 points, otherwise clamp `10 - 2 * (100 * sd)` to `[0, 10]` where `sd`
is the population standard deviation of the returns. -/
noncomputable def calculateVolatilityScore (priceHistory : List ℝ) : ℝ :=
  if priceHistory.length < 5 then 5
  else
    let standardDeviation := Real.sqrt (popVariance (returnsOf priceHistory))
    let volatilityPercent := standardDeviation * 100
    let score := max 0 (10 - volatilityPercent * 2)
    min 10 (max 0 score)

/-- Embedding of `calculateMomentumScore` (part_005 lines 93-112): default 5
below 10 points, otherwise clamp `5 + 2 * m` to `[0, 10]` where `m` is the
percent difference between the mean of the first 5 and the next 5 prices. -/
noncomputable def calculateMomentumScore (priceHistory : List ℝ) : ℝ :=
  if priceHistory.length < 10 then 5
  else
    let recentAvg := listMean (priceHistory.take 5)
    let olderAvg := listMean ((priceHistory.drop 5).take 5)
    let momentumPercent := (recentAvg - olderAvg) / olderAvg * 100
    min 10 (max 0 (5 + momentumPercent * 2))

/-- Model of `Math.round(y)` on the real line: round half toward positive
infinity, which is the ECMAScript behavior. -/
noncomputable def jsRoundReal (y : ℝ) : ℝ := ((⌊y + 1 / 2⌋ : ℤ) : ℝ)

/-- Embedding of `calculateAlphaScore` (part_005 lines 114-118): weighted
combination rounded to one decimal via `Math.round(w * 10) / 10`. -/
noncomputable def calculateAlphaScore (sentiment volatility momentum : ℝ) : ℝ :=
  jsRoundReal ((sentiment * 0.4 + volatility * 0.3 + momentum * 0.3) * 10) / 10

/-- Embedding of `generateSignal` (part_005 lines 120-126). -/
noncomputable def generateSignal (alphaScore : ℝ) : Signal :=
  if alphaScore ≥ 8.5 then .strong_buy
  else if alphaScore ≥ 7 then .buy
  else if alphaScore ≥ 4 ∧ alphaScore ≤ 6 then .hold
  else if alphaScore ≥ 2.5 then .sell
  else .strong_sell

/-- Embedding of the success path of `calculateAlphaSignature` (part_005 lines
14-53): build the metrics from the latest sentiment score and the price
history, and return them with the row persisted via `addAlphaSignature`. -/
noncomputable def calculateAlphaSignature (symbol : String)
    (latestSentimentScore : Option ℝ) (priceHistory : List ℝ) :
    AlphaMetrics × AlphaSignatureRow :=
  let sentimentScore := jsNumOrReal latestSentimentScore 5
  let volatilityScore := calculateVolatilityScore priceHistory
  let momentumScore := calculateMomentumScore priceHistory
  let alphaScore := calculateAlphaScore sentimentScore volatilityScore momentumScore
  let signal := generateSignal alphaScore
  ({ sentimentScore := sentimentScore
     volatilityScore := volatilityScore
     momentumScore := momentumScore
     alphaScore := alphaScore
     signal := signal },
   { symbol := symbol
     alphaScore := alphaScore
     sentimentScore := sentimentScore
     volatilityScore := volatilityScore
     momentumScore := momentumScore
     signal := signal })

end AlphaSignatureService

/-! ## Theorems -/

open SentimentService

/-- C6: for every text input, the keyword fallback scorer returns positive with
score `6 + min(positiveMatches, 4)` when positive matches exceed negative ones,
negative with score `4 - min(negativeMatches, 4)` in the symmetric case,
neutral with score 5 on a tie, and a confidence lying in `[0.7, 0.9]`. -/
theorem mock_sentiment_keyword_rules (text : String) (r : ℚ)
    (h0 : 0 ≤ r) (h1 : r < 1) :
    (positiveMatchCount text > negativeMatchCount text →
      (getMockSentiment text r).sentiment = Sentiment.positive ∧
      (getMockSentiment text r).score = 6 + (min (positiveMatchCount text) 4 : ℕ)) ∧
    (negativeMatchCount text > positiveMatchCount text →
      (getMockSentiment text r).sentiment = Sentiment.negative ∧
      (getMockSentiment text r).score = 4 - (min (negativeMatchCount text) 4 : ℕ)) ∧
    (positiveMatchCount text = negativeMatchCount text →
      (getMockSentiment text r).sentiment = Sentiment.neutral ∧
      (getMockSentiment text r).score = 5) ∧
    0.7 ≤ (getMockSentiment text r).confidence ∧
    (getMockSentiment text r).confidence ≤ 0.9 := by
  have hr2 : 0 ≤ r * 0.2 := mul_nonneg h0 (by norm_num)
  have hr2b : r * 0.2 < 0.2 := by nlinarith
  have hconf : (getMockSentiment text r).confidence = 0.7 + r * 0.2 := by
    unfold getMockSentiment
    split_ifs <;> rfl
  refine ⟨fun h => ?_, fun h => ?_, fun h => ?_, ?_, ?_⟩
  · unfold getMockSentiment
    rw [if_pos h]
    exact ⟨rfl, rfl⟩
  · unfold getMockSentiment
    rw [if_neg (by omega), if_pos h]
    exact ⟨rfl, rfl⟩
  · unfold getMockSentiment
    rw [if_neg (by omega), if_neg (by omega)]
    exact ⟨rfl, rfl⟩
  · rw [hconf]; linarith
  · rw [hconf]; linarith

/-- Witness for C6 on the text "strong growth" (two positive matches) with the
random draw 0. -/
theorem mock_sentiment_keyword_rules_witness :
    (getMockSentiment "strong growth" 0).sentiment = Sentiment.positive ∧
    (getMockSentiment "strong growth" 0).score
      = 6 + (min (positiveMatchCount "strong growth") 4 : ℕ) :=
  (mock_sentiment_keyword_rules "strong growth" 0 (by decide) (by decide)).1 (by decide)

/-- C7 counterexample: a parsed LLM response with the in-range numeric score 0
is not returned unchanged; the falsy-zero default replaces it with 5. -/
theorem sentiment_normalize_zero_score_cex :
    (normalizeSentimentResponse "positive" (some 0) (some 1)).score = 5 ∧
    (normalizeSentimentResponse "positive" (some 0) (some 1)).score ≠ 0 := by
  constructor <;> decide

/-- C7 amended: `scoreSentiment` clamps the score to `[0, 10]` and the
confidence to `[0, 1]`, returns any nonzero numeric score already in `[0, 10]`
unchanged while a score of 0 (being falsy) is replaced by the default 5, and
coerces the sentiment label to the three allowed values with invalid labels
defaulting to neutral. -/
theorem sentiment_normalize_clamps (rawSentiment : String)
    (rawScore rawConfidence : Option ℚ) :
    0 ≤ (normalizeSentimentResponse rawSentiment rawScore rawConfidence).score ∧
    (normalizeSentimentResponse rawSentiment rawScore rawConfidence).score ≤ 10 ∧
    0 ≤ (normalizeSentimentResponse rawSentiment rawScore rawConfidence).confidence ∧
    (normalizeSentimentResponse rawSentiment rawScore rawConfidence).confidence ≤ 1 ∧
    (∀ s : ℚ, rawScore = some s → 0 ≤ s → s ≤ 10 → s ≠ 0 →
      (normalizeSentimentResponse rawSentiment rawScore rawConfidence).score = s) ∧
    (rawScore = some 0 →
      (normalizeSentimentResponse rawSentiment rawScore rawConfidence).score = 5) ∧
    (rawSentiment ∈ ["positive", "negative", "neutral"] →
      (normalizeSentimentResponse rawSentiment rawScore rawConfidence).sentiment
        = sentimentOfString rawSentiment) ∧
    (rawSentiment ∉ ["positive", "negative", "neutral"] →
      (normalizeSentimentResponse rawSentiment rawScore rawConfidence).sentiment
        = Sentiment.neutral) := by
  refine ⟨le_max_left _ _, max_le (by norm_num) (min_le_left _ _),
    le_max_left _ _, max_le (by norm_num) (min_le_left _ _),
    fun s hs h0 h10 hne => ?_, fun hz => ?_, fun hmem => ?_, fun hmem => ?_⟩
  · show max 0 (min 10 (jsNumOr rawScore 5)) = s
    rw [hs]
    show max 0 (min 10 (if s = 0 then 5 else s)) = s
    rw [if_neg hne, min_eq_right h10, max_eq_right h0]
  · show max 0 (min 10 (jsNumOr rawScore 5)) = 5
    rw [hz]
    show max 0 (min 10 (if (0 : ℚ) = 0 then 5 else 0)) = 5
    norm_num
  · show (if rawSentiment ∈ ["positive", "negative", "neutral"] then
        sentimentOfString rawSentiment else Sentiment.neutral) = sentimentOfString rawSentiment
    rw [if_pos hmem]
  · show (if rawSentiment ∈ ["positive", "negative", "neutral"] then
        sentimentOfString rawSentiment else Sentiment.neutral) = Sentiment.neutral
    rw [if_neg hmem]

/-- Witness for C7 on a nonzero in-range score and on an invalid label. -/
theorem sentiment_normalize_clamps_witness :
    (normalizeSentimentResponse "positive" (some 3) (some 2)).score = 3 ∧
    (normalizeSentimentResponse "bogus" none none).sentiment = Sentiment.neutral :=
  ⟨(sentiment_normalize_clamps "positive" (some 3) (some 2)).2.2.2.2.1 3 rfl
      (by decide) (by decide) (by decide),
   (sentiment_normalize_clamps "bogus" none none).2.2.2.2.2.2.2 (by decide)⟩

/-- C10: the rule-based herding detector never produces a finding through
`analyzeBehavioralBiases`, because the per-user sentiment history supplied to
it is always the empty list, below the minimum of 10 records. -/
theorem herding_never_flagged (transactions : List BiasAnalyzer.UserTransaction)
    (userId : String) :
    BiasAnalyzer.detectHerding transactions (BiasAnalyzer.getUserSentimentHistory userId)
      = none := by
  simp [BiasAnalyzer.detectHerding, BiasAnalyzer.getUserSentimentHistory]

/-- C8 counterexample: for a portfolio with one sector and one asset type the
stored diversification score is `Math.round(3.5) = 4`, not the exact
`min(10, 1 * 2 + 1 * 1.5) = 3.5`, and the overconfidence formula therefore uses
the rounded value (yielding 3 rather than 3.25 with no recent trades). -/
theorem diversification_round_cex :
    (BiasAnalyzer.calculateBehavioralProfile "user"
        [{ sector := some "Technology", assetType := "stock" }] [] 0).diversificationScore
      ≠ min 10 ((1 : ℚ) * 2 + 1 * 1.5) ∧
    BiasAnalyzer.overconfidenceScore []
        (BiasAnalyzer.calculateBehavioralProfile "user"
          [{ sector := some "Technology", assetType := "stock" }] [] 0) 0
      ≠ (0 : ℚ) * 2 + (10 - min 10 ((1 : ℚ) * 2 + 1 * 1.5)) / 2 := by
  have hraw : BiasAnalyzer.diversificationScoreRaw
      [{ sector := some "Technology", assetType := "stock" }] = min 10 ((1 : ℚ) * 2 + 1 * 1.5) := by
    unfold BiasAnalyzer.diversificationScoreRaw
    norm_num [show BiasAnalyzer.uniqueSectorCount
        [{ sector := some "Technology", assetType := "stock" }] = 1 from by decide,
      show BiasAnalyzer.uniqueAssetTypeCount
        [{ sector := some "Technology", assetType := "stock" }] = 1 from by decide]
  have hmin : min (10 : ℚ) ((1 : ℚ) * 2 + 1 * 1.5) = 3.5 := by
    rw [min_eq_right (by norm_num)]
    norm_num
  have hdiv : (BiasAnalyzer.calculateBehavioralProfile "user"
      [{ sector := some "Technology", assetType := "stock" }] [] 0).diversificationScore
      = 4 := by
    show BiasAnalyzer.jsRound (BiasAnalyzer.diversificationScoreRaw
      [{ sector := some "Technology", assetType := "stock" }]) = 4
    rw [hraw, hmin]
    unfold BiasAnalyzer.jsRound
    norm_num
  constructor
  · rw [hdiv, hmin]; norm_num
  · show ((BiasAnalyzer.recentTransactionCount [] 0 : ℚ) / 90) * 2
        + (10 - (BiasAnalyzer.calculateBehavioralProfile "user"
            [{ sector := some "Technology", assetType := "stock" }] [] 0).diversificationScore) / 2
      ≠ (0 : ℚ) * 2 + (10 - min 10 ((1 : ℚ) * 2 + 1 * 1.5)) / 2
    rw [hdiv, hmin]
    norm_num [BiasAnalyzer.recentTransactionCount]

/-- C8 amended: for a portfolio spanning exactly one unique sector, the stored
diversification score is `Math.round(min(10, 1 * 2 + uniqueAssetTypes * 1.5))`,
and the overconfidence formula `tradingFrequency * 2 + (10 - d) / 2` uses that
rounded stored value. -/
theorem diversification_one_sector (userId : String)
    (portfolio : List BiasAnalyzer.Holding)
    (transactions txns2 : List BiasAnalyzer.UserTransaction) (now now2 : ℤ)
    (h1 : BiasAnalyzer.uniqueSectorCount portfolio = 1) :
    (BiasAnalyzer.calculateBehavioralProfile userId portfolio transactions now).diversificationScore
      = BiasAnalyzer.jsRound
          (min 10 (1 * 2 + (BiasAnalyzer.uniqueAssetTypeCount portfolio : ℚ) * 1.5)) ∧
    BiasAnalyzer.overconfidenceScore txns2
        (BiasAnalyzer.calculateBehavioralProfile userId portfolio transactions now) now2
      = ((BiasAnalyzer.recentTransactionCount txns2 now2 : ℚ) / 90) * 2
        + (10 - BiasAnalyzer.jsRound
            (min 10 (1 * 2 + (BiasAnalyzer.uniqueAssetTypeCount portfolio : ℚ) * 1.5))) / 2 := by
  have hraw : BiasAnalyzer.diversificationScoreRaw portfolio
      = min 10 (1 * 2 + (BiasAnalyzer.uniqueAssetTypeCount portfolio : ℚ) * 1.5) := by
    unfold BiasAnalyzer.diversificationScoreRaw
    rw [h1]
    norm_num
  have hdiv : (BiasAnalyzer.calculateBehavioralProfile userId portfolio transactions now).diversificationScore
      = BiasAnalyzer.jsRound
          (min 10 (1 * 2 + (BiasAnalyzer.uniqueAssetTypeCount portfolio : ℚ) * 1.5)) := by
    show BiasAnalyzer.jsRound (BiasAnalyzer.diversificationScoreRaw portfolio) = _
    rw [hraw]
  exact ⟨hdiv, by unfold BiasAnalyzer.overconfidenceScore; rw [hdiv]⟩

/-- Witness for C8 on a one-holding portfolio with a single sector. -/
theorem diversification_one_sector_witness :
    (BiasAnalyzer.calculateBehavioralProfile "user"
        [{ sector := some "Technology", assetType := "stock" }] [] 0).diversificationScore
      = BiasAnalyzer.jsRound (min 10 (1 * 2 + (BiasAnalyzer.uniqueAssetTypeCount
          [{ sector := some "Technology", assetType := "stock" }] : ℚ) * 1.5)) ∧
    BiasAnalyzer.overconfidenceScore []
        (BiasAnalyzer.calculateBehavioralProfile "user"
          [{ sector := some "Technology", assetType := "stock" }] [] 0) 0
      = ((BiasAnalyzer.recentTransactionCount [] 0 : ℚ) / 90) * 2
        + (10 - BiasAnalyzer.jsRound (min 10 (1 * 2 + (BiasAnalyzer.uniqueAssetTypeCount
            [{ sector := some "Technology", assetType := "stock" }] : ℚ) * 1.5))) / 2 :=
  diversification_one_sector "user" [{ sector := some "Technology", assetType := "stock" }]
    [] [] 0 0 (by decide)

/-- Helper: the weighted alpha score at sentiment 8, volatility 6, momentum 4
evaluates to 6.2. -/
theorem alphaScore_864 : AlphaSignatureService.calculateAlphaScore 8 6 4 = 6.2 := by
  unfold AlphaSignatureService.calculateAlphaScore AlphaSignatureService.jsRoundReal
  norm_num

/-- Helper: the signal generator maps 6.2 to sell through the
`alphaScore >= 2.5` band. -/
theorem generateSignal_6p2 :
    AlphaSignatureService.generateSignal 6.2 = AlphaSignatureService.Signal.sell := by
  unfold AlphaSignatureService.generateSignal
  rw [if_neg (by norm_num), if_neg (by norm_num), if_neg (by norm_num),
    if_pos (by norm_num)]

/-- C1 counterexample: at sentiment 8, volatility 6 and momentum 4 the signal
is not strong_sell. -/
theorem alpha_signal_6p2_cex :
    AlphaSignatureService.generateSignal (AlphaSignatureService.calculateAlphaScore 8 6 4)
      ≠ AlphaSignatureService.Signal.strong_sell := by
  rw [alphaScore_864, generateSignal_6p2]
  decide

/-- C1 amended: for sentiment 8, volatility 6 and momentum 4 the alpha score is
6.2 and the signal is sell, because 6.2 falls through the hold band `[4, 6]` to
the `alphaScore >= 2.5` branch. -/
theorem alpha_signal_6p2_sell :
    AlphaSignatureService.calculateAlphaScore 8 6 4 = 6.2 ∧
    AlphaSignatureService.generateSignal (AlphaSignatureService.calculateAlphaScore 8 6 4)
      = AlphaSignatureService.Signal.sell :=
  ⟨alphaScore_864, by rw [alphaScore_864, generateSignal_6p2]⟩

/-- C3: every row persisted by `calculateAlphaSignature` stores an alpha score
equal to the one-decimal rounding of `0.4 * sentiment + 0.3 * volatility +
0.3 * momentum` over its own stored sub-scores. -/
theorem alpha_row_recompute (symbol : String) (latestSentimentScore : Option ℝ)
    (priceHistory : List ℝ) :
    ((AlphaSignatureService.calculateAlphaSignature symbol latestSentimentScore priceHistory).2).alphaScore
      = AlphaSignatureService.jsRoundReal
          ((0.4 * ((AlphaSignatureService.calculateAlphaSignature symbol latestSentimentScore priceHistory).2).sentimentScore
            + 0.3 * ((AlphaSignatureService.calculateAlphaSignature symbol latestSentimentScore priceHistory).2).volatilityScore
            + 0.3 * ((AlphaSignatureService.calculateAlphaSignature symbol latestSentimentScore priceHistory).2).momentumScore) * 10) / 10 := by
  simp only [AlphaSignatureService.calculateAlphaSignature]
  unfold AlphaSignatureService.calculateAlphaScore
  congr 2
  ring

/-- C5: the volatility score is exactly the default 5 for histories with fewer
than 5 points, and otherwise equals `clamp(10 - (100 * sd) * 2, 0, 10)` where
`sd` is the population standard deviation of the period-over-period returns. -/
theorem volatility_score_spec (priceHistory : List ℝ) :
    (priceHistory.length < 5 →
      AlphaSignatureService.calculateVolatilityScore priceHistory = 5) ∧
    (5 ≤ priceHistory.length →
      AlphaSignatureService.calculateVolatilityScore priceHistory
        = min 10 (max 0 (10 - 100 * Real.sqrt (AlphaSignatureService.popVariance
            (AlphaSignatureService.returnsOf priceHistory)) * 2))) := by
  constructor
  · intro h
    unfold AlphaSignatureService.calculateVolatilityScore
    rw [if_pos h]
  · intro h
    unfold AlphaSignatureService.calculateVolatilityScore
    rw [if_neg (not_lt.mpr h)]
    have hmul : Real.sqrt (AlphaSignatureService.popVariance
          (AlphaSignatureService.returnsOf priceHistory)) * 100 * 2
        = 100 * Real.sqrt (AlphaSignatureService.popVariance
            (AlphaSignatureService.returnsOf priceHistory)) * 2 := by ring
    show min 10 (max 0 (max 0 (10 - Real.sqrt (AlphaSignatureService.popVariance
        (AlphaSignatureService.returnsOf priceHistory)) * 100 * 2))) = _
    rw [hmul, ← max_assoc, max_self]

/-- Witness for C5: a 3-point history takes the default, and a constant
5-point history takes the computed branch. -/
theorem volatility_score_spec_witness :
    AlphaSignatureService.calculateVolatilityScore [1, 2, 3] = 5 ∧
    AlphaSignatureService.calculateVolatilityScore [1, 1, 1, 1, 1]
      = min 10 (max 0 (10 - 100 * Real.sqrt (AlphaSignatureService.popVariance
          (AlphaSignatureService.returnsOf [1, 1, 1, 1, 1])) * 2)) :=
  ⟨(volatility_score_spec [1, 2, 3]).1 (by decide),
   (volatility_score_spec [1, 1, 1, 1, 1]).2 (by decide)⟩

/-- Helper: every entry of the static base-price table is at least 0.45. -/
theorem basePriceTable_bound : ∀ e ∈ StockApi.basePriceTable, (9 / 20 : ℚ) ≤ e.2 := by
  intro e he
  fin_cases he <;> norm_num

/-- Helper: the base price is always at least 0.45 when the random draw is
nonnegative. -/
theorem getBasePrice_ge (symbol : String) (assetType : StockApi.AssetType) (r : ℚ)
    (hr : 0 ≤ r) :
    (9 / 20 : ℚ) ≤ StockApi.getBasePriceForSymbol symbol assetType r := by
  unfold StockApi.getBasePriceForSymbol
  cases hfind : StockApi.basePriceTable.find? (fun e => e.1 == strUpper symbol) with
  | some e =>
    exact basePriceTable_bound e (List.mem_of_find?_eq_some hfind)
  | none =>
    unfold StockApi.getDefaultPriceForAssetType
    cases assetType <;> nlinarith

/-- Helper: the type volatility band is between 0 and 8. -/
theorem volatility_band_bounds (assetType : StockApi.AssetType) :
    0 ≤ StockApi.getVolatilityForAssetType assetType ∧
    StockApi.getVolatilityForAssetType assetType ≤ 8 := by
  cases assetType <;>
    exact ⟨by norm_num [StockApi.getVolatilityForAssetType],
      by norm_num [StockApi.getVolatilityForAssetType]⟩

/-- Helper: rounding with at least two decimal digits keeps a value of at
least 0.414 strictly positive. -/
theorem toFixed_pos (d : ℕ) (x : ℚ) (hd : 2 ≤ d) (hx : 207 / 500 ≤ x) :
    0 < StockApi.toFixed d x := by
  unfold StockApi.toFixed
  have h10 : (100 : ℚ) ≤ 10 ^ d := by
    calc (100 : ℚ) = 10 ^ 2 := by norm_num
    _ ≤ 10 ^ d := pow_le_pow_right₀ (by norm_num) hd
  have hfl : (41 : ℤ) ≤ ⌊x * 10 ^ d + 1 / 2⌋ := by
    rw [Int.le_floor]
    push_cast
    nlinarith [mul_nonneg (sub_nonneg.2 hx) (sub_nonneg.2 h10)]
  have hnum : (0 : ℚ) < ((⌊x * 10 ^ d + 1 / 2⌋ : ℤ) : ℚ) := by
    have : ((41 : ℤ) : ℚ) ≤ ((⌊x * 10 ^ d + 1 / 2⌋ : ℤ) : ℚ) := by exact_mod_cast hfl
    linarith
  exact div_pos hnum (by positivity)

/-- Helper: the synthetic mock quote always carries a strictly positive price
when the relevant random draws lie in `[0, 1)`. -/
theorem mock_price_pos (symbol : String) (assetType : StockApi.AssetType) (now : ℤ)
    (rBase rChange rVolume : ℚ) (hB : 0 ≤ rBase) (hC0 : 0 ≤ rChange) (hC1 : rChange < 1) :
    0 < (StockApi.getRealisticMockQuote symbol assetType now rBase rChange rVolume).price := by
  have hbase := getBasePrice_ge symbol assetType rBase hB
  obtain ⟨hv0, hv8⟩ := volatility_band_bounds assetType
  set base := StockApi.getBasePriceForSymbol symbol assetType rBase with hbdef
  set vol := StockApi.getVolatilityForAssetType assetType with hvdef
  have hcp : -8 ≤ (rChange - 0.5) * vol * 2 := by nlinarith
  have hraw : (207 / 500 : ℚ) ≤ base + base * ((rChange - 0.5) * vol * 2 / 100) := by
    nlinarith [mul_nonneg (by linarith : (0 : ℚ) ≤ base - 9 / 20)
      (by linarith : (0 : ℚ) ≤ (rChange - 0.5) * vol * 2 + 8)]
  show 0 < StockApi.toFixed (if assetType == .forex then 4 else 2)
      (base + base * ((rChange - 0.5) * vol * 2 / 100))
  apply toFixed_pos _ _ _ hraw
  cases assetType <;> decide

/-- C4: with no providers available, `getQuote` on the empty cache returns,
for every symbol and every admissible random draw, a quote with strictly
positive price and an asset type among the five valid classes; the model is a
total function, reflecting that the source catches every error and falls back
to the synthetic quote. -/
theorem fallback_quote_safe (symbol : String) (now : ℤ) (rBase rChange rVolume : ℚ)
    (hB : 0 ≤ rBase) (hC0 : 0 ≤ rChange) (hC1 : rChange < 1) :
    0 < ((StockApi.getQuote [] symbol now (fun _ => none) false (fun _ => none)
        rBase rChange rVolume).1).price ∧
    ((StockApi.getQuote [] symbol now (fun _ => none) false (fun _ => none)
        rBase rChange rVolume).1).assetType
      ∈ [StockApi.AssetType.stock, StockApi.AssetType.etf, StockApi.AssetType.crypto,
         StockApi.AssetType.commodity, StockApi.AssetType.forex] := by
  have hq : (StockApi.getQuote [] symbol now (fun _ => none) false (fun _ => none)
      rBase rChange rVolume).1
      = StockApi.getRealisticMockQuote symbol (StockApi.determineAssetType symbol) now
          rBase rChange rVolume := rfl
  rw [hq]
  refine ⟨mock_price_pos symbol _ now rBase rChange rVolume hB hC0 hC1, ?_⟩
  show StockApi.determineAssetType symbol ∈ _
  cases StockApi.determineAssetType symbol <;> simp

/-- Witness for C4 at a fresh symbol with random draws 0. -/
theorem fallback_quote_safe_witness :
    0 < ((StockApi.getQuote [] "ZZZT" 0 (fun _ => none) false (fun _ => none)
        0 0 0).1).price ∧
    ((StockApi.getQuote [] "ZZZT" 0 (fun _ => none) false (fun _ => none)
        0 0 0).1).assetType
      ∈ [StockApi.AssetType.stock, StockApi.AssetType.etf, StockApi.AssetType.crypto,
         StockApi.AssetType.commodity, StockApi.AssetType.forex] :=
  fallback_quote_safe "ZZZT" 0 0 0 0 (by decide) (by decide) (by decide)

/-- C9 counterexample: the static fallback table holds 180.25 for AAPL, which
is not a 170-series value. -/
theorem aapl_base_price_cex :
    StockApi.getBasePriceForSymbol "AAPL" StockApi.AssetType.stock 0 = 180.25 ∧
    ¬((170 : ℚ) ≤ StockApi.getBasePriceForSymbol "AAPL" StockApi.AssetType.stock 0 ∧
      StockApi.getBasePriceForSymbol "AAPL" StockApi.AssetType.stock 0 < 180) := by
  have h : StockApi.getBasePriceForSymbol "AAPL" StockApi.AssetType.stock 0 = 180.25 := rfl
  exact ⟨h, by rw [h]; norm_num⟩

/-- C9 amended: with no provider keys configured, `getQuote` for AAPL returns
a stock-typed quote whose company name is "Apple Inc." from the mock lookup and
whose price is derived from the static table base value 180.25 through the
percent-change draw. -/
theorem aapl_fallback_quote (now : ℤ) (rBase rChange rVolume : ℚ) :
    ((StockApi.getQuote [] "AAPL" now (fun _ => none) false (fun _ => none)
        rBase rChange rVolume).1).assetType = StockApi.AssetType.stock ∧
    ((StockApi.getQuote [] "AAPL" now (fun _ => none) false (fun _ => none)
        rBase rChange rVolume).1).companyName = some "Apple Inc." ∧
    ((StockApi.getQuote [] "AAPL" now (fun _ => none) false (fun _ => none)
        rBase rChange rVolume).1).price
      = StockApi.toFixed 2 (180.25 + 180.25 * ((rChange - 0.5) * 3 * 2 / 100)) :=
  ⟨rfl, rfl, rfl⟩

/-- C2 counterexample: with all providers unavailable, consecutive calls 30
seconds apart (inside the 60 second TTL) return different quotes, because the
synthetic fallback is never cached and redraws its percent change. -/
theorem quote_mock_not_idempotent_cex :
    ((30000 : ℤ) - 0 < StockApi.cacheTimeout) ∧
    ((StockApi.getQuote [] "AAPL" 0 (fun _ => none) false (fun _ => none)
        0 0 0).1).price
      ≠ ((StockApi.getQuote
            ((StockApi.getQuote [] "AAPL" 0 (fun _ => none) false (fun _ => none)
              0 0 0).2)
            "AAPL" 30000 (fun _ => none) false (fun _ => none) 0 0.5 0).1).price := by
  refine ⟨by decide, ?_⟩
  have h1 : ((StockApi.getQuote [] "AAPL" 0 (fun _ => none) false (fun _ => none)
      0 0 0).1).price
      = StockApi.toFixed 2 (180.25 + 180.25 * (((0 : ℚ) - 0.5) * 3 * 2 / 100)) := rfl
  have h2 : ((StockApi.getQuote
      ((StockApi.getQuote [] "AAPL" 0 (fun _ => none) false (fun _ => none) 0 0 0).2)
      "AAPL" 30000 (fun _ => none) false (fun _ => none) 0 0.5 0).1).price
      = StockApi.toFixed 2 (180.25 + 180.25 * (((0.5 : ℚ) - 0.5) * 3 * 2 / 100)) := rfl
  rw [h1, h2]
  unfold StockApi.toFixed
  norm_num

/-- C2 amended: when the first call obtains its quote from a provider, the
quote is cached under the raw symbol, and a second call within the 60 second
TTL returns the identical quote regardless of provider behavior and random
draws on the second call. The synthetic fallback path is excluded: it does not
populate the cache, so repeated fallback calls can differ. -/
theorem quote_cache_provider_idempotent
    (c : StockApi.Cache) (symbol : String) (q : StockApi.Quote) (now now2 : ℤ)
    (yahoo alphaVantage yahoo2 alphaVantage2 : String → Option StockApi.Quote)
    (hasKey hasKey2 : Bool) (rB rC rV rB2 rC2 rV2 : ℚ)
    (hmiss : StockApi.cacheLookup c symbol = none)
    (hy : yahoo (StockApi.formatSymbolForYahoo symbol (StockApi.determineAssetType symbol))
      = some q)
    (hfresh : now2 - now < StockApi.cacheTimeout) :
    (StockApi.getQuote c symbol now yahoo hasKey alphaVantage rB rC rV).1 = q ∧
    (StockApi.getQuote
        ((StockApi.getQuote c symbol now yahoo hasKey alphaVantage rB rC rV).2)
        symbol now2 yahoo2 hasKey2 alphaVantage2 rB2 rC2 rV2).1 = q := by
  have h1 : StockApi.getQuote c symbol now yahoo hasKey alphaVantage rB rC rV
      = (q, StockApi.cacheSet c symbol q now) := by
    simp only [StockApi.getQuote, hmiss, StockApi.fetchQuote, hy]
  have hl : StockApi.cacheLookup (StockApi.cacheSet c symbol q now) symbol
      = some (q, now) := by
    unfold StockApi.cacheLookup StockApi.cacheSet
    simp [List.find?]
  have h2 : StockApi.getQuote (StockApi.cacheSet c symbol q now) symbol now2 yahoo2
      hasKey2 alphaVantage2 rB2 rC2 rV2 = (q, StockApi.cacheSet c symbol q now) := by
    simp only [StockApi.getQuote, hl]
    rw [if_pos hfresh]
  refine ⟨by rw [h1], ?_⟩
  rw [h1]
  show (StockApi.getQuote (StockApi.cacheSet c symbol q now) symbol now2 yahoo2
      hasKey2 alphaVantage2 rB2 rC2 rV2).1 = q
  rw [h2]

/-- Witness for C2 with a provider that serves AAPL and a second call 30
seconds later under fully failing providers. -/
theorem quote_cache_provider_idempotent_witness :
    (StockApi.getQuote [] "AAPL" 0
        (fun s => if s == "AAPL" then some StockApi.sampleQuote else none)
        false (fun _ => none) 0 0 0).1 = StockApi.sampleQuote ∧
    (StockApi.getQuote
        ((StockApi.getQuote [] "AAPL" 0
          (fun s => if s == "AAPL" then some StockApi.sampleQuote else none)
          false (fun _ => none) 0 0 0).2)
        "AAPL" 30000 (fun _ => none) false (fun _ => none) 0 0 0).1
      = StockApi.sampleQuote :=
  quote_cache_provider_idempotent [] "AAPL" StockApi.sampleQuote 0 30000
    (fun s => if s == "AAPL" then some StockApi.sampleQuote else none) (fun _ => none)
    (fun _ => none) (fun _ => none) false false 0 0 0 0 0 0 rfl rfl (by decide)
